import Mathlib

/-!
Shallow embedding of `src/reference/projections.rs` (DCS theatre-coordinate
conversion).  Real-valued `f64` quantities are modelled as `ℚ` where the code
performs only field arithmetic (so every claim can be evaluated exactly), and
as `ℝ` for `offset`, whose definition uses `cos`/`sin`.  The external `proj`
engine (crate `proj`) is not part of the repository: a projection handle is
modelled extensionally by its forward-conversion behaviour
(`ℚ × ℚ → Option (ℚ × ℚ)`, `none` = point outside the projection's valid
domain), and `Proj::new_known_crs` is passed in as a parameter
`String → String → Except String Proj`.  Rust's `Result` is `Except String`,
and `.unwrap()` on the engine result is modelled by a distinguished `panic`
outcome, kept separate from returning an error result to the caller.
-/

/-- Rust `struct TransverseMercator` from the source (field-for-field). -/
structure TransverseMercator where
  central_meridian : Int
  false_easting : ℚ
  false_northing : ℚ
  scale_factor : ℚ
deriving DecidableEq

/-- Rust `pub const PG`. -/
def PG : TransverseMercator :=
  { central_meridian := 57
    false_easting := 75755.99999999645
    false_northing := -2894933.0000000377
    scale_factor := 0.9996 }

/-- Rust `pub const SA`. -/
def SA : TransverseMercator :=
  { central_meridian := -57
    false_easting := 147639.99999997593
    false_northing := 5815417.000000032
    scale_factor := 0.9996 }

/-- Rust `pub const CAUC`. -/
def CAUC : TransverseMercator :=
  { central_meridian := 33
    false_easting := -99516.99999997323
    false_northing := -4998114.999999984
    scale_factor := 0.9996 }

/-- Rust `pub const MAR`. -/
def MAR : TransverseMercator :=
  { central_meridian := 147
    false_easting := 238417.99999989968
    false_northing := -1491840.000000048
    scale_factor := 0.9996 }

/-- Rust `pub const NV`. -/
def NV : TransverseMercator :=
  { central_meridian := -117
    false_easting := -193996.80999964548
    false_northing := -4410028.063999966
    scale_factor := 0.9996 }

/-- Rust `pub const NORM`. -/
def NORM : TransverseMercator :=
  { central_meridian := -3
    false_easting := -195526.00000000204
    false_northing := -5484812.999999951
    scale_factor := 0.9996 }

/-- Rust `pub const SY`. -/
def SY : TransverseMercator :=
  { central_meridian := 39
    false_easting := 282801.00000003993
    false_northing := -3879865.9999999935
    scale_factor := 0.9996 }

/-- Rust `pub const SI`. -/
def SI : TransverseMercator :=
  { central_meridian := 33
    false_easting := 169221.9999999585
    false_northing := -3325312.9999999693
    scale_factor := 0.9996 }

/-- Rust `struct DMS` from the source: `degrees: i32, minutes: i32, seconds: f64,
direction: char`. -/
structure DMS where
  degrees : Int
  minutes : Int
  seconds : ℚ
  direction : Char
deriving DecidableEq

/-- Rust `struct LatLonCoordinate` from the source. -/
structure LatLonCoordinate where
  lat_decimal : ℚ
  lon_decimal : ℚ
  lat_dms : DMS
  lon_dms : DMS
deriving DecidableEq

/-- Rust `pub fn projection_from_theatre(theatre: &str)`, with `anyhow!` errors as
their formatted message strings. -/
def projection_from_theatre (theatre : String) : Except String TransverseMercator :=
  match theatre with
  | "PersianGulf" => .ok PG
  | "Falklands" => .ok SA
  | "Caucasus" => .ok CAUC
  | "MarianaIslands" => .ok MAR
  | "Nevada" => .ok NV
  | "Normandy" => .ok NORM
  | "Syria" => .ok SY
  | "SinaiMap" => .ok SI
  | _ => .error ("TransverseMercator not known for " ++ theatre)

/-- The list of theatre identifiers that `projection_from_theatre` matches. -/
def registeredTheatres : List String :=
  ["PersianGulf", "Falklands", "Caucasus", "MarianaIslands",
   "Nevada", "Normandy", "Syria", "SinaiMap"]

/-- A projection handle (the external crate's opaque `Proj` value), modelled
extensionally by its forward-conversion behaviour: `none` means the engine
reports the input point as outside the projection's valid domain. -/
def Proj : Type := ℚ × ℚ → Option (ℚ × ℚ)

/-- Left-pad a string with the digit `0` until its length is at least `k`
(Rust's zero-padded width formatting for a non-negative item). -/
def natPad (s : String) (k : Nat) : String :=
  if k ≤ s.length then s else String.mk (List.replicate (k - s.length) '0') ++ s

/-- Multiplicity of the prime `p` in `n` (fuel-bounded so that it reduces in
the kernel); `padicMult p fuel n` is exact whenever the multiplicity is below
`fuel`. -/
def padicMult (p : Nat) : Nat → Nat → Nat
  | 0, _ => 0
  | fuel + 1, n => if 2 ≤ p ∧ n % p = 0 ∧ n ≠ 0 then padicMult p fuel (n / p) + 1 else 0

/-- Number of decimal digits needed after the point to write `q` exactly
(0 when `q` is an integer): the reduced denominator divides `10^k` exactly
for `k` the larger of its 2- and 5-multiplicities. -/
def decExp (q : ℚ) : Nat := max (padicMult 2 64 q.den) (padicMult 5 64 q.den)

/-- Rust `{}` (`Display`) rendering of an `f64`, modelled on `ℚ`: plain
decimal notation, shortest form, no exponent.  On the constants of the
source this agrees with `f64`'s `Display` (their literals are shortest
round-trip representations).  `q * 10^k` is computed as
`q.num * (10^k / q.den)`, an exact integer because `q.den ∣ 10^k`. -/
def ratDecRepr (q : ℚ) : String :=
  let k := decExp q
  let scaled : Int := q.num * ((10 ^ k : Nat) / q.den : Nat)
  let sign := if scaled < 0 then "-" else ""
  let a := scaled.natAbs
  if k = 0 then sign ++ toString a
  else sign ++ toString (a / 10 ^ k) ++ "." ++ natPad (toString (a % 10 ^ k)) k

/-- The projection-definition string built by `proj_from_map`'s `format!`
call, field order as in the source. -/
def projString (map : TransverseMercator) : String :=
  "+proj=tmerc +lat_0=0 +lon_0=" ++ toString map.central_meridian ++
  " +k_0=" ++ ratDecRepr map.scale_factor ++
  " +x_0=" ++ ratDecRepr map.false_easting ++
  " +y_0=" ++ ratDecRepr map.false_northing

/-- Rust `pub fn proj_from_map`.  The engine constructor
`Proj::new_known_crs(string, datum, None)` is the abstract parameter
`new_known_crs`; the map_err wrapping (a debug rendering of an external
error type) is modelled as passing the engine's error string through. -/
def proj_from_map (new_known_crs : String → String → Except String Proj)
    (map : TransverseMercator) : Except String Proj :=
  match new_known_crs (projString map) "WGS84" with
  | .ok p => .ok p
  | .error e => .error e

/-- Outcome of running code that may panic (Rust `.unwrap()`) in addition to
returning a value. -/
inductive PanicOr (α : Type) where
  | panic
  | ok (a : α)
deriving DecidableEq

/-- Rust `pub fn convert_dcs_lat_lon(x, y, proj)`: `proj.convert((y, x)).unwrap()`.
The axis swap `(y, x)` is from the source; `unwrap` of an engine failure is
the `panic` outcome. -/
def convert_dcs_lat_lon (x y : ℚ) (proj : Proj) : PanicOr (ℚ × ℚ) :=
  match proj (y, x) with
  | some p => .ok p
  | none => .panic

/-- Rust `pub fn offset(x_init, y_init, axis_deg, distance_m)`; `f64` as `ℝ`
because the body uses `to_radians`, `cos` and `sin`. -/
noncomputable def offset (x_init y_init axis_deg distance_m : ℝ) : ℝ × ℝ :=
  let axis_rad := (axis_deg - 0) * (Real.pi / 180)
  let x2 := x_init + distance_m * Real.cos axis_rad
  let y2 := y_init + distance_m * Real.sin axis_rad
  (x2, y2)

/-- Rust `f64::trunc` on `ℚ` (round toward zero), then cast `as i32`. -/
def qtrunc (q : ℚ) : Int := if 0 ≤ q then ⌊q⌋ else ⌈q⌉

/-- Rust `pub fn decimal_to_dms(value, is_latitude)`, line for line. -/
def decimal_to_dms (value : ℚ) (is_latitude : Bool) : DMS :=
  let abs_value := |value|
  let degrees := qtrunc abs_value
  let minutes_float := (abs_value - (degrees : ℚ)) * 60
  let minutes := qtrunc minutes_float
  let seconds := (minutes_float - (minutes : ℚ)) * 60
  let direction := if is_latitude then (if 0 ≤ value then 'N' else 'S')
    else (if 0 ≤ value then 'E' else 'W')
  { degrees := degrees, minutes := minutes, seconds := seconds, direction := direction }

/-- Outcome of `dcs_to_lat_lon_formatted` and its wrappers: an error result
returned to the caller (`Result::Err`), a successful value (`Result::Ok`),
or a panic raised inside the pipeline (never delivered as a `Result`). -/
inductive ConvOutcome (α : Type) where
  | panic
  | err (e : String)
  | ok (a : α)
deriving DecidableEq

/-- Rust `pub fn dcs_to_lat_lon_formatted(x, y, theatre)`: registry lookup, then
projection build, then forward conversion (which may panic), then DMS
encoding of both axes. -/
def dcs_to_lat_lon_formatted (x y : ℚ) (theatre : String)
    (new_known_crs : String → String → Except String Proj) :
    ConvOutcome LatLonCoordinate :=
  match projection_from_theatre theatre with
  | .error e => .err e
  | .ok projection =>
    match proj_from_map new_known_crs projection with
    | .error e => .err e
    | .ok proj =>
      match convert_dcs_lat_lon x y proj with
      | .panic => .panic
      | .ok (lat, lon) =>
        .ok { lat_decimal := lat
              lon_decimal := lon
              lat_dms := decimal_to_dms lat true
              lon_dms := decimal_to_dms lon false }

/-- Round half to even (`f64`-style rounding used by Rust's `{:.3}`
formatting), on `ℚ`. -/
def rhe (q : ℚ) : Int :=
  let f := ⌊q⌋
  let r := q - (f : ℚ)
  if r < 1 / 2 then f else if 1 / 2 < r then f + 1 else if 2 ∣ f then f else f + 1

/-- Rust zero-pad-to-width-2 integer formatting of an `i32` (the sign is
counted in the width). -/
def fmtMin2 (m : Int) : String :=
  if 0 ≤ m then natPad (toString m.toNat) 2
  else "-" ++ natPad (toString m.natAbs) 1

/-- Rust fixed-width float formatting of an `f64` (width 6, 3 decimals), on
`ℚ`: round to 3 decimals, print exactly 3 fractional digits, zero-pad after
the sign to total width 6. -/
def fmtSec (q : ℚ) : String :=
  let m := (rhe (|q| * 1000)).toNat
  let core := toString (m / 1000) ++ "." ++ natPad (toString (m % 1000)) 3
  if q < 0 then "-" ++ natPad core 5 else natPad core 6

/-- Rust `pub fn format_dms(dms)`: unpadded degrees, a degree sign,
two-digit minutes, an apostrophe, width-6 three-decimal seconds, a double
quote, and the direction letter. -/
def format_dms (dms : DMS) : String :=
  toString dms.degrees ++ "°" ++ fmtMin2 dms.minutes ++ "'" ++
  fmtSec dms.seconds ++ "\"" ++ String.singleton dms.direction

/-- Rust `pub fn format_coordinate(coord)`: latitude then longitude joined
by a single space. -/
def format_coordinate (coord : LatLonCoordinate) : String :=
  format_dms coord.lat_dms ++ " " ++ format_dms coord.lon_dms

/-- Rust `pub fn convert_bullseye`: alias of the pipeline. -/
def convert_bullseye (x y : ℚ) (theatre : String)
    (new_known_crs : String → String → Except String Proj) :
    ConvOutcome LatLonCoordinate :=
  dcs_to_lat_lon_formatted x y theatre new_known_crs

/-- Rust `pub fn convert_waypoint`: alias of the pipeline. -/
def convert_waypoint (x y : ℚ) (theatre : String)
    (new_known_crs : String → String → Except String Proj) :
    ConvOutcome LatLonCoordinate :=
  dcs_to_lat_lon_formatted x y theatre new_known_crs

/-- The function `qtrunc` agrees with the floor on non-negative arguments (Rust's `trunc`
rounds toward zero). -/
theorem qtrunc_eq_floor (q : ℚ) (h : 0 ≤ q) : qtrunc q = ⌊q⌋ := if_pos h

/-- Evaluation: `decimal_to_dms 37.7749 true` evaluates to 37° 46' 29.64" N (spec test
value; exact in `ℚ`). -/
theorem decimal_to_dms_ex1 :
    decimal_to_dms 37.7749 true =
      { degrees := 37, minutes := 46, seconds := 29.64, direction := 'N' } := by
  simp only [decimal_to_dms]
  rw [abs_of_nonneg (by norm_num)]
  rw [show qtrunc 37.7749 = 37 by
    rw [qtrunc_eq_floor _ (by norm_num), Int.floor_eq_iff] <;> norm_num]
  rw [show ((37.7749 : ℚ) - (37 : ℤ)) * 60 = 46.494 by norm_num]
  rw [show qtrunc 46.494 = 46 by
    rw [qtrunc_eq_floor _ (by norm_num), Int.floor_eq_iff] <;> norm_num]
  rw [show ((46.494 : ℚ) - (46 : ℤ)) * 60 = 29.64 by norm_num]
  norm_num

/-- Evaluation: `decimal_to_dms (-122.4194) false` evaluates to 122° 25' 9.84" W (spec
test value; exact in `ℚ`). -/
theorem decimal_to_dms_ex2 :
    decimal_to_dms (-122.4194) false =
      { degrees := 122, minutes := 25, seconds := 9.84, direction := 'W' } := by
  simp only [decimal_to_dms]
  rw [show |(-122.4194 : ℚ)| = 122.4194 by rw [abs_of_nonpos (by norm_num)]; norm_num]
  rw [show qtrunc 122.4194 = 122 by
    rw [qtrunc_eq_floor _ (by norm_num), Int.floor_eq_iff] <;> norm_num]
  rw [show ((122.4194 : ℚ) - (122 : ℤ)) * 60 = 25.164 by norm_num]
  rw [show qtrunc 25.164 = 25 by
    rw [qtrunc_eq_floor _ (by norm_num), Int.floor_eq_iff] <;> norm_num]
  rw [show ((25.164 : ℚ) - (25 : ℤ)) * 60 = 9.84 by norm_num]
  norm_num

/-- Looking up any identifier outside the registered set yields the
unknown-theatre error carrying the offending identifier (shared helper). -/
theorem projection_from_theatre_unknown (s : String) (hs : s ∉ registeredTheatres) :
    projection_from_theatre s = .error ("TransverseMercator not known for " ++ s) := by
  simp only [registeredTheatres, List.mem_cons, List.not_mem_nil, or_false, not_or] at hs
  unfold projection_from_theatre
  split <;> simp_all

/-- C2: each registered theatre string maps to exactly its constant
transverse-Mercator parameters; every other string fails with the
unknown-theatre error carrying the offending identifier, the sole error
condition. -/
theorem registry_lookup_exact :
    (projection_from_theatre ("PersianGulf") =
        .ok { central_meridian := 57, false_easting := 75755.99999999645,
              false_northing := -2894933.0000000377, scale_factor := 0.9996 } ∧
      projection_from_theatre ("Falklands") =
        .ok { central_meridian := -57, false_easting := 147639.99999997593,
              false_northing := 5815417.000000032, scale_factor := 0.9996 } ∧
      projection_from_theatre ("Caucasus") =
        .ok { central_meridian := 33, false_easting := -99516.99999997323,
              false_northing := -4998114.999999984, scale_factor := 0.9996 } ∧
      projection_from_theatre ("MarianaIslands") =
        .ok { central_meridian := 147, false_easting := 238417.99999989968,
              false_northing := -1491840.000000048, scale_factor := 0.9996 } ∧
      projection_from_theatre ("Nevada") =
        .ok { central_meridian := -117, false_easting := -193996.80999964548,
              false_northing := -4410028.063999966, scale_factor := 0.9996 } ∧
      projection_from_theatre ("Normandy") =
        .ok { central_meridian := -3, false_easting := -195526.00000000204,
              false_northing := -5484812.999999951, scale_factor := 0.9996 } ∧
      projection_from_theatre ("Syria") =
        .ok { central_meridian := 39, false_easting := 282801.00000003993,
              false_northing := -3879865.9999999935, scale_factor := 0.9996 } ∧
      projection_from_theatre ("SinaiMap") =
        .ok { central_meridian := 33, false_easting := 169221.9999999585,
              false_northing := -3325312.9999999693, scale_factor := 0.9996 }) ∧
    ∀ s : String, s ∉ registeredTheatres →
      projection_from_theatre s = .error ("TransverseMercator not known for " ++ s) :=
  ⟨⟨rfl, rfl, rfl, rfl, rfl, rfl, rfl, rfl⟩,
   fun s hs => projection_from_theatre_unknown s hs⟩

/-- Witness for C2: a case variant of a registered name is rejected with the
message that carries it. -/
theorem registry_lookup_exact_witness :
    projection_from_theatre ("persiangulf") =
      .error ("TransverseMercator not known for " ++ "persiangulf") :=
  registry_lookup_exact.2 ("persiangulf") (by decide)

/-- C10: for a theatre outside the registered set the conversion pipeline
(and both of its aliases) returns the unknown-theatre error, independent of
the input point and of the external engine (which is never consulted). -/
theorem unknown_theatre_engine_independent (t : String) (ht : t ∉ registeredTheatres)
    (x y x2 y2 : ℚ) (eng eng2 : String → String → Except String Proj) :
    dcs_to_lat_lon_formatted x y t eng =
      .err ("TransverseMercator not known for " ++ t) ∧
    dcs_to_lat_lon_formatted x y t eng = dcs_to_lat_lon_formatted x2 y2 t eng2 ∧
    convert_bullseye x y t eng = dcs_to_lat_lon_formatted x y t eng ∧
    convert_waypoint x y t eng = dcs_to_lat_lon_formatted x y t eng := by
  have h := projection_from_theatre_unknown t ht
  simp only [dcs_to_lat_lon_formatted, convert_bullseye, convert_waypoint, h]
  exact ⟨trivial, trivial, trivial, trivial⟩

/-- Witness for C10: an unregistered theatre name with two different points
and two different engines. -/
theorem unknown_theatre_engine_independent_witness :
    dcs_to_lat_lon_formatted 0 0 "Moon" (fun _ _ => .error "boom") =
      .err ("TransverseMercator not known for " ++ "Moon") ∧
    dcs_to_lat_lon_formatted 0 0 "Moon" (fun _ _ => .error "boom") =
      dcs_to_lat_lon_formatted 1 2 "Moon" (fun _ _ => .ok (fun _ => none)) ∧
    convert_bullseye 0 0 "Moon" (fun _ _ => .error "boom") =
      dcs_to_lat_lon_formatted 0 0 "Moon" (fun _ _ => .error "boom") ∧
    convert_waypoint 0 0 "Moon" (fun _ _ => .error "boom") =
      dcs_to_lat_lon_formatted 0 0 "Moon" (fun _ _ => .error "boom") :=
  unknown_theatre_engine_independent ("Moon") (by decide) 0 0 1 2
    (fun _ _ => .error "boom") (fun _ _ => .ok (fun _ => none))

/-- C3: the forward converter queries the engine exactly at the swapped pair
`(y, x)` and returns the engine's successful output unchanged; its result
depends only on the engine's value at `(y, x)`. -/
theorem convert_swaps_axes (x y lat lon : ℚ) (proj proj2 : Proj)
    (hs : proj (y, x) = some (lat, lon)) (hagree : proj (y, x) = proj2 (y, x)) :
    convert_dcs_lat_lon x y proj = .ok (lat, lon) ∧
    convert_dcs_lat_lon x y proj = convert_dcs_lat_lon x y proj2 := by
  simp only [convert_dcs_lat_lon, ← hagree, hs]
  exact ⟨trivial, trivial⟩

/-- Witness for C3: the identity engine sent the point (x, y) = (1, 2)
receives (2, 1) and its output is returned unchanged. -/
theorem convert_swaps_axes_witness :
    convert_dcs_lat_lon 1 2 (fun p => some p) = .ok (2, 1) ∧
    convert_dcs_lat_lon 1 2 (fun p => some p) =
      convert_dcs_lat_lon 1 2 (fun p => some p) :=
  convert_swaps_axes 1 2 2 1 (fun p => some p) (fun p => some p) rfl rfl

/-- Counterexample to C1 as stated: with an engine that reports every point
outside the valid domain, the pipeline ends in a panic (`unwrap`), so no
error result is ever delivered to the caller. -/
theorem out_of_domain_not_error_result :
    dcs_to_lat_lon_formatted 0 0 "PersianGulf" (fun _ _ => .ok (fun _ => none)) =
      ConvOutcome.panic ∧
    ¬ ∃ e, dcs_to_lat_lon_formatted 0 0 "PersianGulf" (fun _ _ => .ok (fun _ => none)) =
      ConvOutcome.err e := by
  have h : dcs_to_lat_lon_formatted 0 0 "PersianGulf" (fun _ _ => .ok (fun _ => none)) =
      ConvOutcome.panic := rfl
  refine ⟨h, ?_⟩
  rintro ⟨e, he⟩
  rw [h] at he
  exact ConvOutcome.noConfusion he

/-- C1 (amended): when the registry lookup and the projection build succeed
and the engine reports the swapped point `(y, x)` as outside the valid
domain, the conversion pipeline (and both aliases) panics: no partial
`LatLonCoordinate` is returned and the point is never clamped, but the
failure is a panic (`unwrap`), not an error result. -/
theorem out_of_domain_panics (x y : ℚ) (t : String)
    (eng : String → String → Except String Proj) (params : TransverseMercator)
    (proj : Proj) (h1 : projection_from_theatre t = .ok params)
    (h2 : proj_from_map eng params = .ok proj) (h3 : proj (y, x) = none) :
    dcs_to_lat_lon_formatted x y t eng = ConvOutcome.panic ∧
    convert_bullseye x y t eng = ConvOutcome.panic ∧
    convert_waypoint x y t eng = ConvOutcome.panic := by
  simp only [dcs_to_lat_lon_formatted, convert_bullseye, convert_waypoint,
    convert_dcs_lat_lon, h1, h2, h3]
  exact ⟨trivial, trivial, trivial⟩

/-- Witness for C1 (amended): the always-out-of-domain engine on the
registered theatre "PersianGulf". -/
theorem out_of_domain_panics_witness :
    dcs_to_lat_lon_formatted 0 0 "PersianGulf" (fun _ _ => .ok (fun _ => none)) =
      ConvOutcome.panic ∧
    convert_bullseye 0 0 "PersianGulf" (fun _ _ => .ok (fun _ => none)) =
      ConvOutcome.panic ∧
    convert_waypoint 0 0 "PersianGulf" (fun _ _ => .ok (fun _ => none)) =
      ConvOutcome.panic :=
  out_of_domain_panics 0 0 "PersianGulf" (fun _ _ => .ok (fun _ => none)) PG
    (fun _ => none) rfl rfl rfl

/-- C4: `decimal_to_dms` computes exactly the floor-based
degrees/minutes/seconds decomposition of the absolute value, with the
direction letter chosen by axis and sign; the two spec test vectors evaluate
exactly (29.64 and 9.84 are exact in `ℚ`). -/
theorem to_dms_algorithm (v : ℚ) (b : Bool) :
    (decimal_to_dms v b).degrees = ⌊|v|⌋ ∧
    (decimal_to_dms v b).minutes = ⌊(|v| - (⌊|v|⌋ : ℚ)) * 60⌋ ∧
    (decimal_to_dms v b).seconds =
      ((|v| - (⌊|v|⌋ : ℚ)) * 60 - (⌊(|v| - (⌊|v|⌋ : ℚ)) * 60⌋ : ℚ)) * 60 ∧
    (decimal_to_dms v b).direction =
      (if b then (if 0 ≤ v then 'N' else 'S') else (if 0 ≤ v then 'E' else 'W')) ∧
    decimal_to_dms 37.7749 true =
      { degrees := 37, minutes := 46, seconds := 29.64, direction := 'N' } ∧
    decimal_to_dms (-122.4194) false =
      { degrees := 122, minutes := 25, seconds := 9.84, direction := 'W' } := by
  have h0 : qtrunc |v| = ⌊|v|⌋ := qtrunc_eq_floor _ (abs_nonneg v)
  have hmf : (0 : ℚ) ≤ (|v| - (⌊|v|⌋ : ℚ)) * 60 := by
    have := Int.floor_le |v|
    have h1 : (0 : ℚ) ≤ |v| - (⌊|v|⌋ : ℚ) := by linarith
    linarith
  have h1 : qtrunc ((|v| - (⌊|v|⌋ : ℚ)) * 60) = ⌊(|v| - (⌊|v|⌋ : ℚ)) * 60⌋ :=
    qtrunc_eq_floor _ hmf
  refine ⟨?_, ?_, ?_, ?_, decimal_to_dms_ex1, decimal_to_dms_ex2⟩ <;>
    simp only [decimal_to_dms, h0, h1]

/-- C5: the DMS produced by `decimal_to_dms` always has seconds in [0, 60),
minutes in [0, 59] and non-negative degrees equal to the truncated absolute
value of the source angle, so the sign lives only in the direction letter. -/
theorem to_dms_invariants (v : ℚ) (b : Bool) :
    0 ≤ (decimal_to_dms v b).seconds ∧ (decimal_to_dms v b).seconds < 60 ∧
    0 ≤ (decimal_to_dms v b).minutes ∧ (decimal_to_dms v b).minutes ≤ 59 ∧
    0 ≤ (decimal_to_dms v b).degrees ∧
    (decimal_to_dms v b).degrees = qtrunc |v| := by
  have h0 : qtrunc |v| = ⌊|v|⌋ := qtrunc_eq_floor _ (abs_nonneg v)
  have hfl : (⌊|v|⌋ : ℚ) ≤ |v| := Int.floor_le |v|
  have hfu : |v| < (⌊|v|⌋ : ℚ) + 1 := Int.lt_floor_add_one |v|
  have hmf0 : (0 : ℚ) ≤ (|v| - (⌊|v|⌋ : ℚ)) * 60 := by linarith
  have hmf60 : (|v| - (⌊|v|⌋ : ℚ)) * 60 < 60 := by linarith
  have h1 : qtrunc ((|v| - (⌊|v|⌋ : ℚ)) * 60) = ⌊(|v| - (⌊|v|⌋ : ℚ)) * 60⌋ :=
    qtrunc_eq_floor _ hmf0
  have hm0 : 0 ≤ ⌊(|v| - (⌊|v|⌋ : ℚ)) * 60⌋ := Int.floor_nonneg.2 hmf0
  have hm59 : ⌊(|v| - (⌊|v|⌋ : ℚ)) * 60⌋ ≤ 59 := by
    have : ⌊(|v| - (⌊|v|⌋ : ℚ)) * 60⌋ < 60 := Int.floor_lt.2 (by exact_mod_cast hmf60)
    omega
  have hsl : (⌊(|v| - (⌊|v|⌋ : ℚ)) * 60⌋ : ℚ) ≤ (|v| - (⌊|v|⌋ : ℚ)) * 60 :=
    Int.floor_le _
  have hsu : (|v| - (⌊|v|⌋ : ℚ)) * 60 < (⌊(|v| - (⌊|v|⌋ : ℚ)) * 60⌋ : ℚ) + 1 :=
    Int.lt_floor_add_one _
  refine ⟨?_, ?_, ?_, ?_, ?_, ?_⟩ <;> simp only [decimal_to_dms, h0, h1]
  · linarith
  · linarith
  · exact hm0
  · exact hm59
  · exact Int.floor_nonneg.2 (abs_nonneg v)

/-- C6: `offset` is exactly the polar displacement with the trigonometric
convention (bearing 0° along +x, measured counter-clockwise, converted to
radians), and the four cardinal bearings displace along the axes. -/
theorem offset_formula (x y b d : ℝ) :
    offset x y b d =
      (x + d * Real.cos (b * (Real.pi / 180)),
       y + d * Real.sin (b * (Real.pi / 180))) ∧
    offset x y 0 d = (x + d, y) ∧
    offset x y 90 d = (x, y + d) ∧
    offset x y 180 d = (x - d, y) ∧
    offset x y 270 d = (x, y - d) := by
  refine ⟨?_, ?_, ?_, ?_, ?_⟩
  · simp only [offset, sub_zero]
  · simp only [offset, sub_zero, zero_mul, Real.cos_zero, Real.sin_zero,
      mul_one, mul_zero, add_zero]
  · simp only [offset, sub_zero]
    rw [show (90 : ℝ) * (Real.pi / 180) = Real.pi / 2 by ring,
      Real.cos_pi_div_two, Real.sin_pi_div_two]
    norm_num
  · simp only [offset, sub_zero]
    rw [show (180 : ℝ) * (Real.pi / 180) = Real.pi by ring,
      Real.cos_pi, Real.sin_pi]
    simp only [Prod.mk.injEq]
    constructor <;> ring
  · simp only [offset, sub_zero]
    rw [show (270 : ℝ) * (Real.pi / 180) = Real.pi / 2 + Real.pi by ring,
      Real.cos_add_pi, Real.sin_add_pi, Real.cos_pi_div_two, Real.sin_pi_div_two]
    simp only [Prod.mk.injEq]
    constructor <;> ring

/-- C7: displacing by distance d at a bearing and then by the same distance
at bearing + 180° returns to the start point; exact in the real-number
model, hence within any floating tolerance. -/
theorem offset_round_trip (x y b d : ℝ) (hd : 0 < d) :
    offset (offset x y b d).1 (offset x y b d).2 (b + 180) d = (x, y) := by
  simp only [offset, sub_zero]
  rw [show (b + 180) * (Real.pi / 180) = b * (Real.pi / 180) + Real.pi by ring,
    Real.cos_add_pi, Real.sin_add_pi]
  simp only [Prod.mk.injEq]
  constructor <;> ring

/-- Witness for C7: round trip from the origin at bearing 0°, distance 1. -/
theorem offset_round_trip_witness :
    offset (offset 0 0 0 1).1 (offset 0 0 0 1).2 (0 + 180) 1 = ((0 : ℝ), (0 : ℝ)) :=
  offset_round_trip 0 0 0 1 (by norm_num)

/-- The scale factor 0.9996 as an explicit fraction (evaluation bridge). -/
theorem PG_scale_factor_frac : PG.scale_factor = mkRat 9996 10000 := by
  show (0.9996 : ℚ) = _
  rw [Rat.mkRat_eq_divInt, Rat.divInt_eq_div]; norm_num

/-- The PersianGulf false easting as an explicit fraction (evaluation
bridge). -/
theorem PG_false_easting_frac :
    PG.false_easting = mkRat 7575599999999645 100000000000 := by
  show (75755.99999999645 : ℚ) = _
  rw [Rat.mkRat_eq_divInt, Rat.divInt_eq_div]; norm_num

/-- The PersianGulf false northing as an explicit fraction (evaluation
bridge). -/
theorem PG_false_northing_frac :
    PG.false_northing = mkRat (-28949330000000377) 10000000000 := by
  show (-2894933.0000000377 : ℚ) = _
  rw [Rat.mkRat_eq_divInt, Rat.divInt_eq_div]; norm_num

/-- C9: `proj_from_map` consults the engine only at the tmerc
projection-definition string (fields in the order central meridian, scale
factor, false easting, false northing) paired with the fixed datum "WGS84";
on the PersianGulf parameters the submitted string is bit-exact. -/
theorem proj_string_contract (map : TransverseMercator)
    (eng eng2 : String → String → Except String Proj)
    (hagree : eng (projString map) "WGS84" = eng2 (projString map) "WGS84") :
    proj_from_map eng map = proj_from_map eng2 map ∧
    projString map =
      "+proj=tmerc +lat_0=0 +lon_0=" ++ toString map.central_meridian ++
      " +k_0=" ++ ratDecRepr map.scale_factor ++
      " +x_0=" ++ ratDecRepr map.false_easting ++
      " +y_0=" ++ ratDecRepr map.false_northing ∧
    projString PG =
      "+proj=tmerc +lat_0=0 +lon_0=57 +k_0=0.9996 +x_0=75755.99999999645 +y_0=-2894933.0000000377" := by
  refine ⟨?_, rfl, ?_⟩
  · simp only [proj_from_map, hagree]
  · simp only [projString, PG_scale_factor_frac, PG_false_easting_frac,
      PG_false_northing_frac, show PG.central_meridian = 57 from rfl]
    decide

/-- Witness for C9: two engines that agree on the PersianGulf definition
string (both accept it) yield the same build result. -/
theorem proj_string_contract_witness :
    proj_from_map (fun _ _ => .ok (fun _ => none)) PG =
      proj_from_map (fun _ _ => .ok (fun _ => none)) PG ∧
    projString PG =
      "+proj=tmerc +lat_0=0 +lon_0=" ++ toString PG.central_meridian ++
      " +k_0=" ++ ratDecRepr PG.scale_factor ++
      " +x_0=" ++ ratDecRepr PG.false_easting ++
      " +y_0=" ++ ratDecRepr PG.false_northing ∧
    projString PG =
      "+proj=tmerc +lat_0=0 +lon_0=57 +k_0=0.9996 +x_0=75755.99999999645 +y_0=-2894933.0000000377" :=
  proj_string_contract PG (fun _ _ => .ok (fun _ => none))
    (fun _ _ => .ok (fun _ => none)) rfl

set_option maxRecDepth 10000 in
/-- Zero-padding a 3-digit-bounded number to width 3 always yields 3
characters. -/
theorem pad3_length : ∀ n, n < 1000 → (natPad (toString n) 3).length = 3 := by decide

/-- Zero-padding a number at most 60 to width 2 always yields 2
characters. -/
theorem pad2_length : ∀ n, n < 61 → (natPad (toString n) 2).length = 2 := by decide

/-- Padding a concatenation to a width that accounts for the fixed suffix is
padding the prefix alone. -/
theorem natPad_append (x y : String) (k : Nat) :
    natPad (x ++ y) (k + y.length) = natPad x k ++ y := by
  unfold natPad
  rw [String.length_append]
  by_cases h : k ≤ x.length
  · rw [if_pos (by omega), if_pos h]
  · rw [if_neg (by omega), if_neg h]
    have : k + y.length - (x.length + y.length) = k - x.length := by omega
    rw [this, String.append_assoc]

/-- Round-half-even of an integer is itself. -/
theorem rhe_intCast (n : ℤ) : rhe ((n : ℤ) : ℚ) = n := by
  simp only [rhe, Int.floor_intCast, sub_self]
  norm_num

/-- Round-half-even lands on the floor or the floor plus one. -/
theorem rhe_bounds (q : ℚ) : ⌊q⌋ ≤ rhe q ∧ rhe q ≤ ⌊q⌋ + 1 := by
  simp only [rhe]
  split_ifs <;> omega

/-- Evaluation rule for `fmtSec` when the scaled seconds value is a known
integer. -/
theorem fmtSec_of_intCast (q : ℚ) (n : ℤ) (h0 : ¬ q < 0) (h : |q| * 1000 = (n : ℚ)) :
    fmtSec q =
      natPad (toString (n.toNat / 1000) ++ "." ++ natPad (toString (n.toNat % 1000)) 3) 6 := by
  simp only [fmtSec, h, rhe_intCast]
  rw [if_neg h0]

/-- For seconds in [0, 60), `fmtSec` renders two zero-padded integer digits,
a point, and exactly three fractional digits. -/
theorem fmtSec_shape (q : ℚ) (h0 : 0 ≤ q) (h60 : q < 60) :
    ∃ a b, fmtSec q = (a ++ ".") ++ b ∧ a.length = 2 ∧ b.length = 3 := by
  have habs : |q| = q := abs_of_nonneg h0
  have hz0 : (0 : ℚ) ≤ q * 1000 := mul_nonneg h0 (by norm_num)
  have hlt : q * 1000 < 60000 := by linarith
  have hr := rhe_bounds (q * 1000)
  have hge : 0 ≤ rhe (q * 1000) := le_trans (Int.floor_nonneg.2 hz0) hr.1
  have hle : rhe (q * 1000) ≤ 60000 := by
    have : ⌊q * 1000⌋ < 60000 := Int.floor_lt.2 (by exact_mod_cast hlt)
    omega
  simp only [fmtSec, habs]
  rw [if_neg (not_lt.2 h0)]
  set n := (rhe (q * 1000)).toNat with hn
  have hn60 : n ≤ 60000 := by omega
  have hb3 : (natPad (toString (n % 1000)) 3).length = 3 :=
    pad3_length (n % 1000) (Nat.mod_lt n (by norm_num))
  have hip : n / 1000 < 61 := by
    have h1 : n / 1000 ≤ 60000 / 1000 := Nat.div_le_div_right hn60
    omega
  have ha2 : (natPad (toString (n / 1000)) 2).length = 2 := pad2_length (n / 1000) hip
  have e1 := natPad_append (toString (n / 1000) ++ ".") (natPad (toString (n % 1000)) 3) 3
  rw [hb3] at e1
  norm_num at e1
  have e2 : natPad (toString (n / 1000) ++ ".") 3 = natPad (toString (n / 1000)) 2 ++ "." :=
    natPad_append (toString (n / 1000)) (".") 2
  exact ⟨natPad (toString (n / 1000)) 2, natPad (toString (n % 1000)) 3,
    by rw [e1, e2], ha2, hb3⟩

/-- Unfolding `format_dms` on an explicit record, spelled out (definitional). -/
theorem format_dms_parts (d m : Int) (s : ℚ) (c : Char) :
    format_dms { degrees := d, minutes := m, seconds := s, direction := c } =
      toString d ++ "°" ++ fmtMin2 m ++ "'" ++ fmtSec s ++ "\"" ++ String.singleton c := rfl

/-- A non-negative integer renders without sign, as its natural value. -/
theorem int_toString_nonneg (z : ℤ) (hz : 0 ≤ z) : toString z = toString z.toNat := by
  lift z to ℕ using hz with n
  simp only [Int.toNat_natCast]
  rfl

/-- The spec's exact formatting test vector, evaluated through the embedded
pipeline. -/
theorem format_dms_ex1 : format_dms (decimal_to_dms 37.7749 true) = "37°46'29.640\"N" := by
  rw [decimal_to_dms_ex1, format_dms_parts]
  rw [fmtSec_of_intCast 29.64 29640 (by norm_num)
    (by rw [abs_of_nonneg (by norm_num)]; push_cast; norm_num)]
  decide

/-- C8: on any DMS value satisfying the data-model invariants (minutes in
[0, 59], seconds in [0, 60), degrees non-negative), `format_dms` renders
degrees unpadded and unsigned, minutes as exactly two digits, seconds as two
zero-padded digits, a point and exactly three fractional digits, followed by
the direction letter; the spec vector renders bit-exactly, and
`format_coordinate` joins latitude then longitude with a single space. -/
theorem format_dms_canonical (dms : DMS)
    (hm0 : 0 ≤ dms.minutes) (hm59 : dms.minutes ≤ 59)
    (hs0 : 0 ≤ dms.seconds) (hs60 : dms.seconds < 60) (hd : 0 ≤ dms.degrees) :
    (∃ minStr secInt secFrac,
      format_dms dms =
        toString dms.degrees.toNat ++ "°" ++ minStr ++ "'" ++
        ((secInt ++ ".") ++ secFrac) ++ "\"" ++ String.singleton dms.direction ∧
      minStr.length = 2 ∧ secInt.length = 2 ∧ secFrac.length = 3) ∧
    format_dms (decimal_to_dms 37.7749 true) = "37°46'29.640\"N" ∧
    (∀ coord : LatLonCoordinate,
      format_coordinate coord =
        format_dms coord.lat_dms ++ " " ++ format_dms coord.lon_dms) := by
  obtain ⟨a, b, hab, ha, hb⟩ := fmtSec_shape dms.seconds hs0 hs60
  refine ⟨⟨fmtMin2 dms.minutes, a, b, ?_, ?_, ha, hb⟩, format_dms_ex1, fun coord => rfl⟩
  · show toString dms.degrees ++ "°" ++ fmtMin2 dms.minutes ++ "'" ++
      fmtSec dms.seconds ++ "\"" ++ String.singleton dms.direction = _
    rw [hab, int_toString_nonneg dms.degrees hd]
  · simp only [fmtMin2]
    rw [if_pos hm0]
    exact pad2_length dms.minutes.toNat (by omega)

/-- Witness for C8: the 122° 25' 9.84" W record satisfies the invariants and
formats canonically. -/
theorem format_dms_canonical_witness :
    (∃ minStr secInt secFrac,
      format_dms { degrees := 122, minutes := 25, seconds := 9.84, direction := 'W' } =
        toString (122 : ℤ).toNat ++ "°" ++ minStr ++ "'" ++
        ((secInt ++ ".") ++ secFrac) ++ "\"" ++ String.singleton 'W' ∧
      minStr.length = 2 ∧ secInt.length = 2 ∧ secFrac.length = 3) ∧
    format_dms (decimal_to_dms 37.7749 true) = "37°46'29.640\"N" ∧
    (∀ coord : LatLonCoordinate,
      format_coordinate coord =
        format_dms coord.lat_dms ++ " " ++ format_dms coord.lon_dms) :=
  format_dms_canonical { degrees := 122, minutes := 25, seconds := 9.84, direction := 'W' }
    (by norm_num) (by norm_num) (by norm_num) (by norm_num) (by norm_num)
